import Mathlib

/-!
Verification of the RecrBeam-Calculator core engine (`calculator.py`).

The Python module computes the nominal and design flexural moment capacity
of a singly-reinforced rectangular concrete beam per ACI 318.  Numeric
values (Python floats) are modelled as rationals; the single square root
(`math.sqrt` in `calculate_as_min`) is modelled as `Real.sqrt` over the
coerced rational, so the minimum steel area lives in the reals.
-/

/-- Mirror of the attribute set a `RectangularBeam` instance carries after
`__init__` has run (`calculator.py`, lines 60-81).  `unit_system` stores the
lower-cased tag, `As` stores `n_bars * bar_area`, `Es` and `beta1` store the
resolved defaults. -/
@[ext]
structure RectangularBeam where
  b : ℚ
  h : ℚ
  d : ℚ
  fc : ℚ
  fy : ℚ
  n_bars : ℤ
  bar_area : ℚ
  As : ℚ
  epsilon_cu : ℚ
  unit_system : String
  Es : ℚ
  beta1 : ℚ
  deriving Repr

/-- Model of the Python `str.lower()` call in `__init__` (line 69): each
character of the tag is lower-cased.  (The inputs of interest are ASCII
tags such as "imperial", "si", "SI".) -/
def pyLower (s : String) : String := String.mk (s.data.map Char.toLower)

/-- Mirror of the method `RectangularBeam._calculate_beta1` (lines 83-100).
The two instance fields it reads (`self.unit_system`, already lower-cased,
and `self.fc`) are passed explicitly because the method runs during
construction, before the `beta1` field exists. -/
def calculate_beta1 (unit_system : String) (fc : ℚ) : ℚ :=
  if unit_system = "imperial" then
    if fc ≤ 4000 then 0.85
    else if fc ≥ 8000 then 0.65
    else 0.85 - 0.05 * (fc - 4000) / 1000
  else
    if fc ≤ 28 then 0.85
    else if fc ≥ 55 then 0.65
    else 0.85 - 0.05 * (fc - 28) / 7

/-- Mirror of `RectangularBeam.__init__` (lines 30-81): stores the raw
inputs, derives `As = n_bars * bar_area`, lower-cases the unit-system tag,
resolves the `Es` default (29000000 psi imperial, 200000 MPa otherwise) and
the `beta1` default (derived from `fc` when not supplied).  The Python
constructor performs no validation whatsoever. -/
def RectangularBeam.init (b h d fc fy : ℚ) (n_bars : ℤ) (bar_area : ℚ)
    (Es : Option ℚ) (beta1 : Option ℚ) (epsilon_cu : ℚ)
    (unit_system : String) : RectangularBeam :=
  let us := pyLower unit_system
  { b := b
    h := h
    d := d
    fc := fc
    fy := fy
    n_bars := n_bars
    bar_area := bar_area
    As := (n_bars : ℚ) * bar_area
    epsilon_cu := epsilon_cu
    unit_system := us
    Es := match Es with
      | none => if us = "imperial" then 29000000 else 200000
      | some e => e
    beta1 := match beta1 with
      | none => calculate_beta1 us fc
      | some v => v }

/-- Mirror of `RectangularBeam.calculate_as_min` (lines 102-115); the only
use of `math.sqrt` in the module, hence real-valued here. -/
noncomputable def RectangularBeam.calculate_as_min (self : RectangularBeam) : ℝ :=
  if self.unit_system = "imperial" then
    max ((3 * Real.sqrt (self.fc : ℝ) / (self.fy : ℝ)) * (self.b : ℝ) * (self.d : ℝ))
        (((200 : ℝ) / (self.fy : ℝ)) * (self.b : ℝ) * (self.d : ℝ))
  else
    max ((0.25 * Real.sqrt (self.fc : ℝ) / (self.fy : ℝ)) * (self.b : ℝ) * (self.d : ℝ))
        (((1.4 : ℝ) / (self.fy : ℝ)) * (self.b : ℝ) * (self.d : ℝ))

/-- Mirror of the dict returned by `RectangularBeam.calculate_mn`
(lines 186-209).  The two Python booleans are carried as propositions;
`As_min` and `as_check` involve the square root and are real-valued. -/
structure MomentResult where
  T : ℚ
  T_display : ℚ
  a : ℚ
  c : ℚ
  epsilon_y : ℚ
  epsilon_s : ℚ
  yield_check : Prop
  fs : ℚ
  Mn : ℚ
  Mn_k : ℚ
  Mn_display : ℚ
  As : ℚ
  As_min : ℝ
  as_check : Prop
  epsilon_t : ℚ
  phi : ℚ
  Mu : ℚ
  Mu_display : ℚ
  Mn_kft : Option ℚ
  Mn_kin : Option ℚ
  Mu_kft : Option ℚ

/-- Mirror of `RectangularBeam.calculate_mn` (lines 117-209), step for step:
tension force, stress-block depth, neutral-axis depth, strains, yield check,
nominal moment, display conversions, minimum-steel check, phi factor, and
design moment. -/
noncomputable def RectangularBeam.calculate_mn (self : RectangularBeam) : MomentResult :=
  let T := self.As * self.fy
  let a := (self.As * self.fy) / (0.85 * self.fc * self.b)
  let c := a / self.beta1
  let epsilon_y := self.fy / self.Es
  let epsilon_s := self.epsilon_cu * (self.d - c) / c
  let fs := if epsilon_s ≥ epsilon_y then self.fy else epsilon_s * self.Es
  let Mn := self.As * fs * (self.d - a / 2)
  let Mn_display := if self.unit_system = "imperial" then Mn / 12000 else Mn / 1000000
  let T_display := T / 1000
  let Mn_k := if self.unit_system = "imperial" then Mn / 1000 else Mn
  let As_min := self.calculate_as_min
  let epsilon_t := epsilon_s
  let phi :=
    if epsilon_t ≥ 0.005 then 0.9
    else if epsilon_t ≤ 0.002 then 0.65
    else 0.65 + 0.25 * (epsilon_t - 0.002) / 0.003
  let Mu := phi * Mn
  let Mu_display := if self.unit_system = "imperial" then Mu / 12000 else Mu / 1000000
  { T := T
    T_display := T_display
    a := a
    c := c
    epsilon_y := epsilon_y
    epsilon_s := epsilon_s
    yield_check := epsilon_s ≥ epsilon_y
    fs := fs
    Mn := Mn
    Mn_k := Mn_k
    Mn_display := Mn_display
    As := self.As
    As_min := As_min
    as_check := (self.As : ℝ) ≥ As_min
    epsilon_t := epsilon_t
    phi := phi
    Mu := Mu
    Mu_display := Mu_display
    Mn_kft := if self.unit_system = "imperial" then some Mn_display else none
    Mn_kin := if self.unit_system = "imperial" then some (Mn_k / 1000) else none
    Mu_kft := if self.unit_system = "imperial" then some Mu_display else none }

/-- Mirror of the label dict returned by `RectangularBeam.get_units`
(lines 211-234). -/
structure UnitLabels where
  length : String
  area : String
  force : String
  force_k : String
  stress : String
  moment : String
  moment_k : String
  moment_display : String
  deriving Repr, DecidableEq

/-- Mirror of `RectangularBeam.get_units` (lines 211-234). -/
def RectangularBeam.get_units (self : RectangularBeam) : UnitLabels :=
  if self.unit_system = "imperial" then
    { length := "in", area := "in^2", force := "lb", force_k := "kips"
      stress := "psi", moment := "lb-in", moment_k := "k-in"
      moment_display := "k-ft" }
  else
    { length := "mm", area := "mm^2", force := "N", force_k := "kN"
      stress := "MPa", moment := "N-mm", moment_k := "N-mm"
      moment_display := "kN-m" }

/-- Spec section 3 invariants on a constructed section: every raw input is
strictly positive and the effective depth does not exceed the total depth. -/
def SectionInvariants (m : RectangularBeam) : Prop :=
  0 < m.b ∧ 0 < m.h ∧ 0 < m.d ∧ 0 < m.fc ∧ 0 < m.fy ∧ 0 < m.Es ∧
    0 < m.n_bars ∧ 0 < m.bar_area ∧ m.d ≤ m.h

/-- Strength-reduction factor as a standalone function of the net tensile
strain, exactly the three-way branch inlined at lines 171-178 of
`calculate_mn`. -/
def phi_factor (epsilon_t : ℚ) : ℚ :=
  if epsilon_t ≥ 0.005 then 0.9
  else if epsilon_t ≤ 0.002 then 0.65
  else 0.65 + 0.25 * (epsilon_t - 0.002) / 0.003

/-- Modelled from the claim wording of C3 for the SI table: the mid-range
value would be the exact linear interpolation between the breakpoints
(28, 0.85) and (55, 0.65).  Used only to compare against the code. -/
def beta1_claimed_si (fc : ℚ) : ℚ :=
  if fc ≤ 28 then 0.85
  else if fc ≥ 55 then 0.65
  else 0.85 + (0.65 - 0.85) * (fc - 28) / (55 - 28)

/-- Imperial reference example of the spec (ACI 318 Example 4-1). -/
def impBeam : RectangularBeam :=
  RectangularBeam.init 12 20 17.5 4000 60000 4 0.79 none none 0.003 "imperial"

/-- SI reference example of the spec (ACI 318 Example 4-1M). -/
def siBeam : RectangularBeam :=
  RectangularBeam.init 250 565 500 20 420 3 510 none none 0.003 "si"

/-- Section with `d > h`, accepted without complaint by the constructor. -/
def badDepthBeam : RectangularBeam :=
  RectangularBeam.init 12 20 30 4000 60000 4 0.79 none none 0.003 "imperial"

/-- Section with a negative steel yield strength, which drives the
neutral-axis depth negative while `fc` stays positive (so the Python
`math.sqrt` in the minimum-steel step succeeds and the solver genuinely
runs to completion). -/
def negFyBeam : RectangularBeam :=
  RectangularBeam.init 12 20 17.5 4000 (-60000) 4 0.79 none none 0.003 "imperial"

theorem impBeam_eq :
    impBeam = { b := 12, h := 20, d := 17.5, fc := 4000, fy := 60000,
                n_bars := 4, bar_area := 0.79, As := 3.16, epsilon_cu := 0.003,
                unit_system := "imperial", Es := 29000000, beta1 := 0.85 } := by
  simp only [impBeam, RectangularBeam.init, calculate_beta1]
  norm_num
  decide

theorem siBeam_eq :
    siBeam = { b := 250, h := 565, d := 500, fc := 20, fy := 420,
               n_bars := 3, bar_area := 510, As := 1530, epsilon_cu := 0.003,
               unit_system := "si", Es := 200000, beta1 := 0.85 } := by
  have h1 : pyLower "si" = "si" := by decide
  have h2 : ("si" : String) ≠ "imperial" := by decide
  simp only [siBeam, RectangularBeam.init, calculate_beta1, h1, h2]
  norm_num

theorem badDepthBeam_eq :
    badDepthBeam = { b := 12, h := 20, d := 30, fc := 4000, fy := 60000,
                     n_bars := 4, bar_area := 0.79, As := 3.16, epsilon_cu := 0.003,
                     unit_system := "imperial", Es := 29000000, beta1 := 0.85 } := by
  simp only [badDepthBeam, RectangularBeam.init, calculate_beta1]
  norm_num
  decide

theorem negFyBeam_eq :
    negFyBeam = { b := 12, h := 20, d := 17.5, fc := 4000, fy := -60000,
                  n_bars := 4, bar_area := 0.79, As := 3.16, epsilon_cu := 0.003,
                  unit_system := "imperial", Es := 29000000, beta1 := 0.85 } := by
  simp only [negFyBeam, RectangularBeam.init, calculate_beta1]
  norm_num
  decide

/-- C1: for every SectionModel satisfying the section 3 invariants, the
solver computes exactly the closed-form chain `T = As*fy`,
`a = As*fy/(0.85*fc*b)`, `c = a/beta1`, `epsilon_y = fy/Es`,
`epsilon_s = epsilon_cu*(d-c)/c`, steel yields iff `epsilon_s ≥ epsilon_y`,
`fs = fy` when yielding and `fs = epsilon_s*Es` otherwise,
`Mn = As*fs*(d - a/2)`, and `Mu = phi*Mn`. -/
theorem claim_C1_solver_chain (m : RectangularBeam) (hm : SectionInvariants m) :
    m.calculate_mn.T = m.As * m.fy ∧
    m.calculate_mn.a = m.As * m.fy / (0.85 * m.fc * m.b) ∧
    m.calculate_mn.c = m.calculate_mn.a / m.beta1 ∧
    m.calculate_mn.epsilon_y = m.fy / m.Es ∧
    m.calculate_mn.epsilon_s =
      m.epsilon_cu * (m.d - m.calculate_mn.c) / m.calculate_mn.c ∧
    (m.calculate_mn.yield_check ↔
      m.calculate_mn.epsilon_s ≥ m.calculate_mn.epsilon_y) ∧
    (m.calculate_mn.yield_check → m.calculate_mn.fs = m.fy) ∧
    (¬ m.calculate_mn.yield_check →
      m.calculate_mn.fs = m.calculate_mn.epsilon_s * m.Es) ∧
    m.calculate_mn.Mn = m.As * m.calculate_mn.fs * (m.d - m.calculate_mn.a / 2) ∧
    m.calculate_mn.Mu = m.calculate_mn.phi * m.calculate_mn.Mn := by
  refine ⟨rfl, rfl, rfl, rfl, rfl, Iff.rfl, fun hy => ?_, fun hn => ?_, rfl, rfl⟩
  · exact if_pos hy
  · exact if_neg hn

theorem claim_C1_witness :
    (RectangularBeam.calculate_mn impBeam).T = impBeam.As * impBeam.fy :=
  (claim_C1_solver_chain impBeam
    (by rw [impBeam_eq]; norm_num [SectionInvariants])).1

/-- C2 counterexample: the constructor accepts `d = 30 > h = 20` without any
error and `calculate_mn` still produces a fully determined MomentResult,
contradicting the claim that construction fails with `InvalidSectionError`
and that no MomentResult is ever produced from such inputs. -/
theorem claim_C2_counterexample :
    badDepthBeam.h < badDepthBeam.d ∧
    badDepthBeam.calculate_mn.As = 3.16 ∧
    badDepthBeam.calculate_mn.T = 189600 := by
  rw [badDepthBeam_eq]
  refine ⟨by norm_num, ?_, ?_⟩ <;>
    simp only [RectangularBeam.calculate_mn] <;> norm_num

/-- C2 amended: construction performs no validation at all.  A section with
`d > h` is accepted with its fields stored verbatim, no error type exists in
the module, and (with the material inputs positive, so the square root in
the minimum-steel step is defined) `calculate_mn` still produces a
MomentResult from it. -/
theorem claim_C2_amended (b h d fc fy : ℚ) (n : ℤ) (ba : ℚ) (eps : ℚ)
    (us : String) (hdh : h < d) (hfc : 0 < fc) :
    (RectangularBeam.init b h d fc fy n ba none none eps us).h = h ∧
    (RectangularBeam.init b h d fc fy n ba none none eps us).d = d ∧
    (RectangularBeam.init b h d fc fy n ba none none eps us).calculate_mn.As
      = (n : ℚ) * ba ∧
    (RectangularBeam.init b h d fc fy n ba none none eps us).calculate_mn.T
      = (n : ℚ) * ba * fy :=
  ⟨rfl, rfl, rfl, rfl⟩

theorem claim_C2_witness :
    (RectangularBeam.init 12 20 30 4000 60000 4 0.79 none none 0.003
      "imperial").calculate_mn.As = ((4 : ℤ) : ℚ) * 0.79 :=
  (claim_C2_amended 12 20 30 4000 60000 4 0.79 0.003 "imperial"
    (by norm_num) (by norm_num)).2.2.1

/-- C3 counterexample: in the SI system the derived mid-range value is not
the linear interpolation between the breakpoints (28, 0.85) and (55, 0.65):
at `fc = 35` MPa the code yields 0.8 while the interpolant claimed by the
spec yields 431/540, so the two disagree (and the SI table is in fact
discontinuous at 55 MPa). -/
theorem claim_C3_counterexample :
    calculate_beta1 "si" 35 = 0.8 ∧
    beta1_claimed_si 35 = 431 / 540 ∧
    calculate_beta1 "si" 35 ≠ beta1_claimed_si 35 := by
  have hs : ("si" : String) ≠ "imperial" := by decide
  norm_num [calculate_beta1, beta1_claimed_si, hs]

/-- C3 amended: a caller-supplied beta1 is used verbatim; otherwise beta1 is
0.85 up to 4000 psi (28 MPa) and 0.65 from 8000 psi (55 MPa) on.  The
imperial mid-range is the exact linear interpolation between (4000, 0.85)
and (8000, 0.65), giving 0.75 at 6000 psi; the SI mid-range line has slope
-0.05 per 7 MPa and would meet 0.65 only at 56 MPa, so the SI table jumps
from 4.6/7 to 0.65 at 55 MPa; at exactly 55 MPa the upper branch gives
0.65. -/
theorem claim_C3_amended :
    (∀ (b h d fc fy : ℚ) (n : ℤ) (ba : ℚ) (Es : Option ℚ) (eps : ℚ)
       (us : String) (bv : ℚ),
      (RectangularBeam.init b h d fc fy n ba Es (some bv) eps us).beta1 = bv) ∧
    (∀ fc : ℚ, calculate_beta1 "imperial" fc =
      if fc ≤ 4000 then 0.85 else if fc ≥ 8000 then 0.65
      else 0.85 + (0.65 - 0.85) / (8000 - 4000) * (fc - 4000)) ∧
    (∀ fc : ℚ, calculate_beta1 "si" fc =
      if fc ≤ 28 then 0.85 else if fc ≥ 55 then 0.65
      else 0.85 + (0.65 - 0.85) / (56 - 28) * (fc - 28)) ∧
    calculate_beta1 "imperial" 6000 = 0.75 ∧
    calculate_beta1 "imperial" 4000 = 0.85 ∧
    calculate_beta1 "imperial" 8000 = 0.65 ∧
    calculate_beta1 "si" 28 = 0.85 ∧
    calculate_beta1 "si" 55 = 0.65 := by
  have hs : ("si" : String) ≠ "imperial" := by decide
  refine ⟨fun b h d fc fy n ba Es eps us bv => rfl, fun fc => ?_, fun fc => ?_,
    ?_, ?_, ?_, ?_, ?_⟩
  · unfold calculate_beta1
    rw [if_pos rfl]
    split_ifs <;> ring
  · unfold calculate_beta1
    rw [if_neg hs]
    split_ifs <;> ring
  · norm_num [calculate_beta1]
  · norm_num [calculate_beta1]
  · norm_num [calculate_beta1]
  · norm_num [calculate_beta1, hs]
  · norm_num [calculate_beta1, hs]

/-- C4: for every valid SectionModel the minimum steel area equals
`max(3*sqrt(fc)/fy, 200/fy) * b * d` in the imperial system and
`max(0.25*sqrt(fc)/fy, 1.4/fy) * b * d` in SI, and the result field
`as_check` holds exactly when `As ≥ As_min`. -/
theorem claim_C4_as_min (m : RectangularBeam) (hm : SectionInvariants m) :
    (m.unit_system = "imperial" →
      m.calculate_as_min
        = max (3 * Real.sqrt (m.fc : ℝ) / (m.fy : ℝ)) ((200 : ℝ) / (m.fy : ℝ))
            * ((m.b : ℝ) * (m.d : ℝ))) ∧
    (m.unit_system ≠ "imperial" →
      m.calculate_as_min
        = max (0.25 * Real.sqrt (m.fc : ℝ) / (m.fy : ℝ))
            ((1.4 : ℝ) / (m.fy : ℝ)) * ((m.b : ℝ) * (m.d : ℝ))) ∧
    (m.calculate_mn.as_check ↔ (m.As : ℝ) ≥ m.calculate_as_min) := by
  obtain ⟨hb, hh, hd, _⟩ := hm
  have hb2 : (0 : ℝ) < (m.b : ℝ) := by exact_mod_cast hb
  have hd2 : (0 : ℝ) < (m.d : ℝ) := by exact_mod_cast hd
  have hbd : (0 : ℝ) ≤ (m.b : ℝ) * (m.d : ℝ) := mul_nonneg hb2.le hd2.le
  refine ⟨fun hus => ?_, fun hus => ?_, Iff.rfl⟩
  · unfold RectangularBeam.calculate_as_min
    rw [if_pos hus, mul_assoc, mul_assoc, ← max_mul_of_nonneg _ _ hbd]
  · unfold RectangularBeam.calculate_as_min
    rw [if_neg hus, mul_assoc, mul_assoc, ← max_mul_of_nonneg _ _ hbd]

theorem claim_C4_witness :
    (RectangularBeam.calculate_mn impBeam).as_check ↔
      (impBeam.As : ℝ) ≥ impBeam.calculate_as_min :=
  (claim_C4_as_min impBeam
    (by rw [impBeam_eq]; norm_num [SectionInvariants])).2.2

theorem phi_trans_eq (t : ℚ) :
    0.65 + 0.25 * (t - 0.002) / 0.003 = 0.65 + (250 / 3) * (t - 0.002) := by
  ring

/-- C5: the phi field of the solver is the strength-reduction factor as a
function of the net tensile strain: 0.9 from 0.005 on, 0.65 up to 0.002,
and the linear transition `0.65 + 0.25*(t - 0.002)/0.003` in between; the
function is monotonically non-decreasing and stays within [0.65, 0.9]. -/
theorem claim_C5_phi :
    (∀ m : RectangularBeam,
      m.calculate_mn.phi = phi_factor m.calculate_mn.epsilon_t) ∧
    (∀ t : ℚ, 0.005 ≤ t → phi_factor t = 0.9) ∧
    (∀ t : ℚ, t ≤ 0.002 → phi_factor t = 0.65) ∧
    (∀ t : ℚ, 0.002 < t → t < 0.005 →
      phi_factor t = 0.65 + 0.25 * (t - 0.002) / 0.003) ∧
    (∀ s t : ℚ, s ≤ t → phi_factor s ≤ phi_factor t) ∧
    (∀ t : ℚ, 0.65 ≤ phi_factor t ∧ phi_factor t ≤ 0.9) := by
  refine ⟨fun m => rfl, fun t ht => ?_, fun t ht => ?_, fun t h1 h2 => ?_,
    fun s t hst => ?_, fun t => ?_⟩
  · simp only [phi_factor, phi_trans_eq]
    split_ifs <;> linarith
  · simp only [phi_factor, phi_trans_eq]
    split_ifs <;> linarith
  · simp only [phi_factor, phi_trans_eq]
    split_ifs <;> linarith
  · simp only [phi_factor, phi_trans_eq]
    split_ifs <;> linarith
  · simp only [phi_factor, phi_trans_eq]
    constructor <;> (split_ifs <;> linarith)

theorem claim_C5_witness :
    (0.003 : ℚ) ≤ 0.004 ∧ phi_factor 0.003 ≤ phi_factor 0.004 :=
  ⟨by norm_num, claim_C5_phi.2.2.2.2.1 0.003 0.004 (by norm_num)⟩

/-- C6: the solver reproduces the reference examples of the spec: for the
imperial Example 4-1 inputs it returns `As = 3.16`, `a` within 0.01 of
4.647, `c = a/0.85`, a yielding, tension-controlled section with
`phi = 0.9` and a display moment within 0.5 of 239.79 k-ft; for the SI
Example 4-1M inputs it returns `As = 1530`, `a` within 1.0 of 151.76 and a
yielding section. -/
theorem claim_C6_reference_examples :
    impBeam.calculate_mn.As = 3.16 ∧
    |impBeam.calculate_mn.a - 4.647| ≤ 0.01 ∧
    impBeam.calculate_mn.c = impBeam.calculate_mn.a / 0.85 ∧
    impBeam.calculate_mn.yield_check ∧
    0.005 ≤ impBeam.calculate_mn.epsilon_t ∧
    impBeam.calculate_mn.phi = 0.9 ∧
    |impBeam.calculate_mn.Mn_display - 239.79| ≤ 0.5 ∧
    siBeam.calculate_mn.As = 1530 ∧
    |siBeam.calculate_mn.a - 151.76| ≤ 1 ∧
    siBeam.calculate_mn.yield_check := by
  have hs : ("si" : String) ≠ "imperial" := by decide
  refine ⟨?_, ?_, ?_, ?_, ?_, ?_, ?_, ?_, ?_, ?_⟩
  · rw [impBeam_eq]
    simp only [RectangularBeam.calculate_mn]
  · rw [impBeam_eq]
    simp only [RectangularBeam.calculate_mn]
    rw [abs_le]
    constructor <;> norm_num
  · rw [impBeam_eq]
    simp only [RectangularBeam.calculate_mn]
  · rw [impBeam_eq]
    simp only [RectangularBeam.calculate_mn]
    norm_num
  · rw [impBeam_eq]
    simp only [RectangularBeam.calculate_mn]
    norm_num
  · rw [impBeam_eq]
    simp only [RectangularBeam.calculate_mn]
    norm_num
  · rw [impBeam_eq]
    simp only [RectangularBeam.calculate_mn]
    rw [abs_le]
    constructor <;> norm_num
  · rw [siBeam_eq]
    simp only [RectangularBeam.calculate_mn]
  · rw [siBeam_eq]
    simp only [RectangularBeam.calculate_mn]
    rw [abs_le]
    constructor <;> norm_num
  · rw [siBeam_eq]
    simp only [RectangularBeam.calculate_mn]
    norm_num

/-- C7 counterexample: with a negative steel yield strength the computed
neutral-axis depth is negative, yet the solver raises nothing and returns a
fully computed MomentResult (its phi factor lands in the
compression-controlled branch), contradicting the claim that `c ≤ 0`
triggers an `InvalidSectionError`. -/
theorem claim_C7_counterexample :
    negFyBeam.calculate_mn.c < 0 ∧ negFyBeam.calculate_mn.phi = 0.65 := by
  rw [negFyBeam_eq]
  constructor
  · simp only [RectangularBeam.calculate_mn]
    norm_num
  · simp only [RectangularBeam.calculate_mn]
    norm_num

/-- C7 amended: the solver contains no `c ≤ 0` check and returns a computed
MomentResult even when `c` is negative; the second half of the claim does
hold: under the section 3 positivity invariants (`As, fy, fc, b, beta1`
positive) the neutral-axis depth is strictly positive, so the degenerate
case cannot arise from a valid SectionModel. -/
theorem claim_C7_amended (m : RectangularBeam) (hAs : 0 < m.As)
    (hfy : 0 < m.fy) (hfc : 0 < m.fc) (hb : 0 < m.b) (hbeta : 0 < m.beta1) :
    0 < m.calculate_mn.c := by
  show 0 < m.As * m.fy / (0.85 * m.fc * m.b) / m.beta1
  have h1 : 0 < m.As * m.fy := mul_pos hAs hfy
  have h2 : (0 : ℚ) < 0.85 * m.fc * m.b :=
    mul_pos (mul_pos (by norm_num) hfc) hb
  exact div_pos (div_pos h1 h2) hbeta

theorem claim_C7_witness : 0 < (RectangularBeam.calculate_mn impBeam).c :=
  claim_C7_amended impBeam
    (by rw [impBeam_eq]; norm_num) (by rw [impBeam_eq]; norm_num)
    (by rw [impBeam_eq]; norm_num) (by rw [impBeam_eq]; norm_num)
    (by rw [impBeam_eq]; norm_num)

/-- C8: doubling the bar count while halving the bar area, all other inputs
fixed, leaves the derived steel area, the stress-block depth and the
nominal moment of the solver unchanged. -/
theorem claim_C8_bar_split_invariance (b h d fc fy : ℚ) (n : ℤ) (ba : ℚ)
    (Es beta : Option ℚ) (eps : ℚ) (us : String) :
    (RectangularBeam.init b h d fc fy (2 * n) (ba / 2) Es beta eps
        us).calculate_mn.As
      = (RectangularBeam.init b h d fc fy n ba Es beta eps us).calculate_mn.As ∧
    (RectangularBeam.init b h d fc fy (2 * n) (ba / 2) Es beta eps
        us).calculate_mn.a
      = (RectangularBeam.init b h d fc fy n ba Es beta eps us).calculate_mn.a ∧
    (RectangularBeam.init b h d fc fy (2 * n) (ba / 2) Es beta eps
        us).calculate_mn.Mn
      = (RectangularBeam.init b h d fc fy n ba Es beta eps us).calculate_mn.Mn := by
  have key : ((2 * n : ℤ) : ℚ) * (ba / 2) = ((n : ℤ) : ℚ) * ba := by
    push_cast
    ring
  refine ⟨?_, ?_, ?_⟩ <;>
    simp only [RectangularBeam.calculate_mn, RectangularBeam.init, key]

/-- C9: the solver is a pure function of the section fields: two sections
that agree on every stored field produce identical MomentResult records and
identical unit labels.  (Freedom from input/output and from mutation is
intrinsic to the embedding: `calculate_mn` only reads `self`.) -/
theorem claim_C9_determinism (m1 m2 : RectangularBeam)
    (h1 : m1.b = m2.b) (h2 : m1.h = m2.h) (h3 : m1.d = m2.d)
    (h4 : m1.fc = m2.fc) (h5 : m1.fy = m2.fy) (h6 : m1.n_bars = m2.n_bars)
    (h7 : m1.bar_area = m2.bar_area) (h8 : m1.As = m2.As)
    (h9 : m1.epsilon_cu = m2.epsilon_cu)
    (h10 : m1.unit_system = m2.unit_system)
    (h11 : m1.Es = m2.Es) (h12 : m1.beta1 = m2.beta1) :
    m1.calculate_mn = m2.calculate_mn ∧ m1.get_units = m2.get_units := by
  have hm : m1 = m2 := by
    cases m1
    cases m2
    simp_all
  rw [hm]
  exact ⟨rfl, rfl⟩

theorem claim_C9_witness :
    RectangularBeam.calculate_mn impBeam = RectangularBeam.calculate_mn impBeam ∧
    impBeam.get_units = impBeam.get_units :=
  claim_C9_determinism impBeam impBeam rfl rfl rfl rfl rfl rfl rfl rfl rfl rfl
    rfl rfl

/-- C10: the unit-system tag is never validated: for every tag whose
lower-cased form is not exactly "imperial", construction and every derived
computation silently take the SI branch (default `Es = 200000`, SI beta1
table, SI minimum-steel coefficients, SI display divisor, `None` legacy
k-ft fields, SI unit labels) and no error is raised. -/
theorem claim_C10_unit_tag_fallback (s : String)
    (hs : pyLower s ≠ "imperial") (b h d fc fy : ℚ) (n : ℤ) (ba : ℚ)
    (eps : ℚ) :
    (RectangularBeam.init b h d fc fy n ba none none eps s).Es = 200000 ∧
    (RectangularBeam.init b h d fc fy n ba none none eps s).beta1
      = (if fc ≤ 28 then 0.85 else if fc ≥ 55 then 0.65
         else 0.85 - 0.05 * (fc - 28) / 7) ∧
    (RectangularBeam.init b h d fc fy n ba none none eps s).unit_system
      ≠ "imperial" ∧
    (RectangularBeam.init b h d fc fy n ba none none eps
        s).calculate_mn.Mn_display
      = (RectangularBeam.init b h d fc fy n ba none none eps
          s).calculate_mn.Mn / 1000000 ∧
    (RectangularBeam.init b h d fc fy n ba none none eps
        s).calculate_mn.Mn_kft = none ∧
    (RectangularBeam.init b h d fc fy n ba none none eps s).calculate_as_min
      = max ((0.25 * Real.sqrt (fc : ℝ) / (fy : ℝ)) * (b : ℝ) * (d : ℝ))
          (((1.4 : ℝ) / (fy : ℝ)) * (b : ℝ) * (d : ℝ)) ∧
    (RectangularBeam.init b h d fc fy n ba none none eps s).get_units
      = { length := "mm", area := "mm^2", force := "N", force_k := "kN",
          stress := "MPa", moment := "N-mm", moment_k := "N-mm",
          moment_display := "kN-m" } := by
  refine ⟨?_, ?_, ?_, ?_, ?_, ?_, ?_⟩
  · simp [RectangularBeam.init, hs]
  · simp [RectangularBeam.init, calculate_beta1, hs]
  · simp [RectangularBeam.init, hs]
  · simp [RectangularBeam.init, RectangularBeam.calculate_mn, hs]
  · simp [RectangularBeam.init, RectangularBeam.calculate_mn, hs]
  · simp [RectangularBeam.init, RectangularBeam.calculate_as_min, hs]
  · simp [RectangularBeam.init, RectangularBeam.get_units, hs]

theorem claim_C10_witness :
    (RectangularBeam.init 1 1 1 30 420 2 100 none none 0.003 "Metric").Es
      = 200000 :=
  (claim_C10_unit_tag_fallback "Metric" (by decide) 1 1 1 30 420 2 100
    0.003).1
